import Mathlib

/-!
Shallow embedding of `src/oss_fuzz_analysis/analyzer.py` (OSS-Fuzz coverage
analysis pipeline).

Modelling conventions:
* A pandas `DataFrame` for coverage data is modelled column-wise by
  `CoverageDF`: the two base columns `date`/`coverage` are `rows`, and the
  `growth_rate` column added by the analyzer is an optional extra column
  (`none` while the column is absent).
* Python floats are modelled by `ℚ`; `NaN` growth rate entries by `none`.
* Mutation of a stored dataframe is modelled by state passing: a function
  that assigns into a stored table (as `analyze_project_data` does via
  `coverage_df["growth_rate"] = ...`) returns the updated `project_data`
  mapping alongside its result.  `plot_coverage_trends` operates on a
  `.copy()` of each table, hence it returns the mapping unchanged.
* Exceptions (`KeyError`, date-parse `ValueError`) are `Except String`.
* The HTTP transport of `fetch_project_metadata` is a parameter
  `get : String → HttpResponse`; response bodies are JSON values `JVal`.
* Side effects (HTTP requests, image save, report write) are recorded as an
  ordered `Effect` trace by `main`.
-/

namespace OssFuzz

/-- A JSON value, as produced by `response.json()` / consumed by `json.dump`. -/
inductive JVal where
  | null : JVal
  | bool (b : Bool) : JVal
  | num (q : ℚ) : JVal
  | str (s : String) : JVal
  | arr (xs : List JVal) : JVal
  | obj (fields : List (String × JVal)) : JVal

/-- One row of the simulated crash table: columns `date`, `crash_hash`, `type`. -/
structure CrashRow where
  date : String
  crash_hash : String
  type : String
deriving Repr, DecidableEq

/-- One row of the base coverage table: columns `date`, `coverage`. -/
structure CovRow where
  date : String
  coverage : ℚ
deriving Repr, DecidableEq

/-- A coverage dataframe: the base `date`/`coverage` rows plus the
`growth_rate` column, which is `none` until the analyzer assigns it. -/
structure CoverageDF where
  rows : List CovRow
  growth_rate : Option (List (Option ℚ))
deriving Repr, DecidableEq

/-- The per-project value stored in `project_data`: the crash table and the
coverage dataframe. -/
structure ProjectTables where
  crashes : List CrashRow
  coverage : CoverageDF
deriving Repr, DecidableEq

/-- The `coverage_base` dictionary of `fetch_project_data`; `none` models a
`KeyError` on lookup. -/
def coverage_base (project : String) : Option ℚ :=
  if project = "zlib" then some 70
  else if project = "libpng" then some 75
  else if project = "openssl" then some 65
  else none

/-- The fixed simulated `crash_data` list (identical for every project). -/
def crash_data : List CrashRow :=
  [⟨"15-01-2025", "mno345", "null-pointer"⟩,
   ⟨"28-01-2025", "pqr678", "division-by-zero"⟩,
   ⟨"31-01-2025", "jkl012", "integer-overflow"⟩,
   ⟨"10-02-2025", "stu901", "buffer-overflow"⟩,
   ⟨"20-02-2025", "vwx234", "race-condition"⟩,
   ⟨"25-02-2025", "ghi789", "stack-overflow"⟩,
   ⟨"06-03-2025", "def456", "use-after-free"⟩,
   ⟨"06-03-2025", "abc123", "heap-overflow"⟩,
   ⟨"15-03-2025", "abc123", "heap-overflow"⟩]

/-- The simulated `coverage_data` list for a given baseline `base`. -/
def coverage_data (base : ℚ) : List CovRow :=
  [⟨"15-01-2025", base⟩,
   ⟨"28-01-2025", base + 3⟩,
   ⟨"31-01-2025", base + 5⟩,
   ⟨"10-02-2025", base + 7⟩,
   ⟨"20-02-2025", base + 10⟩,
   ⟨"25-02-2025", base + 12⟩,
   ⟨"06-03-2025", base + 15⟩,
   ⟨"06-03-2025", base + 17⟩,
   ⟨"15-03-2025", base + 20⟩]

/-- Model of `fetch_project_data`: builds the simulated tables per project; an unknown
project raises `KeyError` at `coverage_base[project]`, aborting the call. -/
def fetch_project_data : List String → Except String (List (String × ProjectTables))
  | [] => Except.ok []
  | project :: rest =>
    match coverage_base project with
    | none => Except.error ("KeyError: " ++ project)
    | some base =>
      match fetch_project_data rest with
      | Except.error e => Except.error e
      | Except.ok tail =>
        Except.ok ((project, ⟨crash_data, ⟨coverage_data base, none⟩⟩) :: tail)

/-- Tail of pandas `pct_change` given the value preceding the current cell:
each output cell is `(cur - prev) / prev`. -/
def pctAux (prev : ℚ) : List ℚ → List (Option ℚ)
  | [] => []
  | c :: rest => some ((c - prev) / prev) :: pctAux c rest

/-- pandas `Series.pct_change`: first cell `NaN` (here `none`), then
`(cur - prev) / prev` for each consecutive pair. -/
def pct_change : List ℚ → List (Option ℚ)
  | [] => []
  | c :: rest => none :: pctAux c rest

/-- One record of `coverage_df.to_dict(orient="records")` after the analyzer
added the `growth_rate` column. -/
structure TrendRow where
  date : String
  coverage : ℚ
  growth_rate : Option ℚ
deriving Repr, DecidableEq

/-- The per-project analysis record. -/
structure Analysis where
  unique_crashes : Nat
  avg_coverage : ℚ
  coverage_trend : List TrendRow
deriving Repr, DecidableEq

/-- The `coverage` column of a project's tables. -/
def coverage_column (t : ProjectTables) : List ℚ :=
  t.coverage.rows.map CovRow.coverage

/-- The loop body of `analyze_project_data` for one project.  Mirrors the
source: `nunique` over `crash_hash`, `mean` over `coverage`,
`coverage_df["growth_rate"] = coverage_df["coverage"].pct_change() * 100`
(an assignment into the STORED dataframe - `coverage_df` aliases
`data["coverage"]`, no copy is taken), `astype(str)` on the already-string
`date` column (identity), and `to_dict(orient="records")` of the mutated
dataframe.  Returns the analysis record and the post-assignment tables. -/
def analyze_one (data : ProjectTables) : Analysis × ProjectTables :=
  let unique_crashes := (data.crashes.map CrashRow.crash_hash).dedup.length
  let covs := coverage_column data
  let avg_coverage := covs.sum / (covs.length : ℚ)
  let growth := (pct_change covs).map (fun o => o.map (fun r => r * 100))
  let trend := List.zipWith (fun (r : CovRow) g => TrendRow.mk r.date r.coverage g)
      data.coverage.rows growth
  (⟨unique_crashes, avg_coverage, trend⟩,
   ⟨data.crashes, ⟨data.coverage.rows, some growth⟩⟩)

/-- Model of `analyze_project_data`: folds `analyze_one` over the mapping, returning
the analysis mapping and the post-mutation `project_data` state. -/
def analyze_project_data :
    List (String × ProjectTables) →
      List (String × Analysis) × List (String × ProjectTables)
  | [] => ([], [])
  | (project, data) :: rest =>
    let r := analyze_one data
    let tail := analyze_project_data rest
    ((project, r.1) :: tail.1, (project, r.2) :: tail.2)

/-- An HTTP response as seen through `requests.get`: a status code and the
value `response.json()` would produce. -/
structure HttpResponse where
  status_code : Nat
  body : JVal

/-- An observable side effect of the pipeline, in temporal order. -/
inductive Effect where
  | httpGet (url : String) : Effect
  | saveFig (path : String) : Effect
  | writeFile (path : String) (content : JVal) : Effect

/-- The GitHub API URL queried for a project. -/
def metadata_url (project : String) : String :=
  "https://api.github.com/repos/google/oss-fuzz/contents/projects/" ++ project

/-- The sentinel stored for a non-200 response. -/
def notFoundRecord : JVal := JVal.obj [("error", JVal.str "Project not found")]

/-- Model of `fetch_project_metadata`: one GET per project, in order; a 200 response
stores the decoded body, any other status stores the sentinel.  The transport
`get` is a parameter.  Also returns the ordered list of HTTP effects. -/
def fetch_project_metadata (get : String → HttpResponse) :
    List String → List Effect × List (String × JVal)
  | [] => ([], [])
  | project :: rest =>
    let response := get (metadata_url project)
    let record := if response.status_code = 200 then response.body else notFoundRecord
    let tail := fetch_project_metadata get rest
    (Effect.httpGet (metadata_url project) :: tail.1, (project, record) :: tail.2)

/-- Split a character list at every dash, keeping empty segments. -/
def splitDash : List Char → List (List Char)
  | [] => [[]]
  | c :: rest =>
    let r := splitDash rest
    if c = '-' then [] :: r
    else
      match r with
      | [] => [[c]]
      | seg :: segs => (c :: seg) :: segs

/-- Accumulator run of a decimal digit parser. -/
def digitsToNatAux (acc : Nat) : List Char → Option Nat
  | [] => some acc
  | c :: rest =>
    if c.isDigit then digitsToNatAux (acc * 10 + (c.toNat - 48)) rest else none

/-- Parse a non-empty all-digit character run as a decimal number. -/
def digitsToNat? : List Char → Option Nat
  | [] => none
  | c :: rest => digitsToNatAux 0 (c :: rest)

/-- Model of `pd.to_datetime(s, format="%d-%m-%Y")`: parses `"DD-MM-YYYY"`
into a sortable key `y * 10000 + m * 100 + d`; `none` models the
`ValueError` raised on a malformed date. -/
def parseDate (s : String) : Option Nat :=
  match splitDash s.toList with
  | [d, m, y] =>
    match digitsToNat? d, digitsToNat? m, digitsToNat? y with
    | some dd, some mm, some yy =>
      if 1 ≤ dd ∧ dd ≤ 31 ∧ 1 ≤ mm ∧ mm ≤ 12 then
        some (yy * 10000 + mm * 100 + dd)
      else none
    | _, _, _ => none
  | _ => none

/-- Insertion step for the date sort used by the renderer. -/
def insertByKey (x : Nat × ℚ) : List (Nat × ℚ) → List (Nat × ℚ)
  | [] => [x]
  | y :: ys => if x.1 < y.1 then x :: y :: ys else y :: insertByKey x ys

/-- Model of `df.sort_values("date")`: sort the (parsed-date, coverage)
pairs ascending by date key. -/
def sortByKey : List (Nat × ℚ) → List (Nat × ℚ)
  | [] => []
  | x :: xs => insertByKey x (sortByKey xs)

/-- Parse every date of a coverage table into a sort key, keeping the
coverage value; the first malformed date aborts with the parse error. -/
def parseSeries : List CovRow → Except String (List (Nat × ℚ))
  | [] => Except.ok []
  | r :: rest =>
    match parseDate r.date with
    | none => Except.error ("time data " ++ r.date ++ " does not match format %d-%m-%Y")
    | some k =>
      match parseSeries rest with
      | Except.error e => Except.error e
      | Except.ok tail => Except.ok ((k, r.coverage) :: tail)

/-- The plotted line series for one project: dates parsed, then sorted
chronologically (computed on the `.copy()` of the stored table). -/
def seriesOf (rows : List CovRow) : Except String (List (Nat × ℚ)) :=
  match parseSeries rows with
  | Except.error e => Except.error e
  | Except.ok ps => Except.ok (sortByKey ps)

/-- The plotting loop of `plot_coverage_trends`: for each requested project,
look the tables up in `project_data` (`KeyError` when absent) and build its
series.  `df = project_data[project]["coverage"].copy()` means every
transformation acts on a local copy, so no updated store is produced. -/
def plotLoop (project_data : List (String × ProjectTables)) :
    List String → Except String (List (String × List (Nat × ℚ)))
  | [] => Except.ok []
  | project :: rest =>
    match project_data.lookup project with
    | none => Except.error ("KeyError: " ++ project)
    | some t =>
      match seriesOf t.coverage.rows with
      | Except.error e => Except.error e
      | Except.ok s =>
        match plotLoop project_data rest with
        | Except.error e => Except.error e
        | Except.ok tail => Except.ok ((project, s) :: tail)

/-- Fixed output path of the chart image. -/
def chart_path : String := "outputs/coverage_trends.png"

/-- Fixed output path of the JSON report. -/
def report_path : String := "outputs/oss_fuzz_analysis.json"

/-- Model of `plot_coverage_trends`: renders the per-project series and saves the
figure.  Returns (series, effects) together with the `project_data` state,
which is unchanged because each iteration works on a `.copy()`. -/
def plot_coverage_trends (project_data : List (String × ProjectTables))
    (project_names : List String) :
    Except String ((List (String × List (Nat × ℚ)) × List Effect) ×
      List (String × ProjectTables)) :=
  match plotLoop project_data project_names with
  | Except.error e => Except.error e
  | Except.ok series => Except.ok ((series, [Effect.saveFig chart_path]), project_data)

/-- Serialize an optional growth rate (`none` is the `NaN` cell). -/
def jnum? : Option ℚ → JVal
  | none => JVal.null
  | some q => JVal.num q

/-- Serialization of one crash row via `to_dict(orient="records")`. -/
def crashRecord (r : CrashRow) : JVal :=
  JVal.obj [("date", JVal.str r.date), ("crash_hash", JVal.str r.crash_hash),
            ("type", JVal.str r.type)]

/-- Serialization of a coverage dataframe via `to_dict(orient="records")`: the emitted
records carry exactly the columns the dataframe has at serialization time,
so a present `growth_rate` column appears in every record. -/
def coverageRecords (df : CoverageDF) : List JVal :=
  match df.growth_rate with
  | none => df.rows.map (fun r =>
      JVal.obj [("date", JVal.str r.date), ("coverage", JVal.num r.coverage)])
  | some g => List.zipWith
      (fun (r : CovRow) gr =>
        JVal.obj [("date", JVal.str r.date), ("coverage", JVal.num r.coverage),
                  ("growth_rate", jnum? gr)])
      df.rows g

/-- Serialization of one trend record. -/
def trendRecord (r : TrendRow) : JVal :=
  JVal.obj [("date", JVal.str r.date), ("coverage", JVal.num r.coverage),
            ("growth_rate", jnum? r.growth_rate)]

/-- Serialization of one analysis record. -/
def analysisRecord (a : Analysis) : JVal :=
  JVal.obj [("unique_crashes", JVal.num (a.unique_crashes : ℚ)),
            ("avg_coverage", JVal.num a.avg_coverage),
            ("coverage_trend", JVal.arr (a.coverage_trend.map trendRecord))]

/-- The `raw_data` entry for one project: records of the (copied) crash and
coverage dataframes as they stand when the report is built. -/
def rawRecord (t : ProjectTables) : JVal :=
  JVal.obj [("crashes", JVal.arr (t.crashes.map crashRecord)),
            ("coverage", JVal.arr (coverageRecords t.coverage))]

/-- The outcome of a successful `main` run: the report written to the JSON
file and the ordered trace of observable side effects. -/
structure MainResult where
  report : JVal
  trace : List Effect

/-- The top-level keys of a JSON object. -/
def topKeys : JVal → List String
  | JVal.obj fields => fields.map Prod.fst
  | _ => []

/-- Model of `main`: fetch metadata, fetch data, analyze (mutating the stored
coverage tables), render the chart from the post-analysis state, build the
report from the post-analysis state, write it.  Any raised exception
propagates and aborts the run. -/
def main (get : String → HttpResponse) (project_names : List String) :
    Except String MainResult :=
  let metaR := fetch_project_metadata get project_names
  match fetch_project_data project_names with
  | Except.error e => Except.error e
  | Except.ok project_data =>
    let ar := analyze_project_data project_data
    match plot_coverage_trends ar.2 project_names with
    | Except.error e => Except.error e
    | Except.ok plotR =>
      let raw_data := plotR.2.map (fun pd => (pd.1, rawRecord pd.2))
      let results := JVal.obj
        [("metadata", JVal.obj metaR.2),
         ("analysis", JVal.obj (ar.1.map (fun pa => (pa.1, analysisRecord pa.2)))),
         ("raw_data", JVal.obj raw_data)]
      Except.ok ⟨results, metaR.1 ++ plotR.1.2 ++ [Effect.writeFile report_path results]⟩

/-- Whether an exception-carrying computation succeeded. -/
def exceptOk {α : Type} : Except String α → Bool
  | Except.ok _ => true
  | Except.error _ => false

/-- The tables `fetch_project_data` builds for the `zlib` baseline 70. -/
def zlibTables : ProjectTables := ⟨crash_data, ⟨coverage_data 70, none⟩⟩

/-- The `project_data` mapping returned by `fetch_project_data ["zlib"]`. -/
def zlibPD : List (String × ProjectTables) := [("zlib", zlibTables)]

/-- A transport stub that replies 200 with a fixed body to every URL. -/
def stub200 : String → HttpResponse := fun _ => ⟨200, JVal.str "ok"⟩

/-- A transport stub that replies 404 to every URL. -/
def stub404 : String → HttpResponse := fun _ => ⟨404, JVal.null⟩

/-- Every entry of a successful `fetch_project_data` result carries the fixed
crash table and the coverage table generated from the project's baseline,
with no `growth_rate` column. -/
lemma fetch_ok_mem {names : List String} {pd : List (String × ProjectTables)}
    (hf : fetch_project_data names = Except.ok pd)
    {p : String} {t : ProjectTables} (hmem : (p, t) ∈ pd) :
    ∃ b, coverage_base p = some b ∧ t = ⟨crash_data, ⟨coverage_data b, none⟩⟩ := by
  induction names generalizing pd with
  | nil =>
    simp only [fetch_project_data, Except.ok.injEq] at hf
    subst hf
    simp at hmem
  | cons q rest ih =>
    simp only [fetch_project_data] at hf
    cases hq : coverage_base q with
    | none => rw [hq] at hf; exact absurd hf (by simp)
    | some b =>
      rw [hq] at hf
      cases hrest : fetch_project_data rest with
      | error e => rw [hrest] at hf; exact absurd hf (by simp)
      | ok tail =>
        rw [hrest] at hf
        simp only [Except.ok.injEq] at hf
        subst hf
        rcases List.mem_cons.mp hmem with heq | hmem2
        · injection heq with hp ht
          exact ⟨b, hp ▸ hq, ht⟩
        · exact ih hrest hmem2

/-- The analysis produced by `analyze_one` does not depend on the presence or
content of the `growth_rate` column of the input. -/
lemma analyze_one_fst_ignores_growth (c : List CrashRow) (r : List CovRow)
    (g1 g2 : Option (List (Option ℚ))) :
    (analyze_one ⟨c, ⟨r, g1⟩⟩).1 = (analyze_one ⟨c, ⟨r, g2⟩⟩).1 := rfl

/-- C1: the claim says the Data Provider's stored coverage table is unchanged
by the Analyzer and `raw_data` holds only `date`/`coverage` columns.  The
code contradicts this: `analyze_project_data` assigns the `growth_rate`
column into the stored dataframe (analyzer.py line 129, no copy), so after
analysis the stored table carries a `growth_rate` column which `main` then
serializes into `raw_data`.  Evaluated at the failing input `["zlib"]`: the
fetched table has no `growth_rate` column, the post-analysis stored table
does. -/
theorem C1_growth_rate_leaks_into_stored_table :
    fetch_project_data ["zlib"] = Except.ok zlibPD ∧
    zlibPD.map (fun pt => pt.2.coverage.growth_rate.isSome) = [false] ∧
    (analyze_project_data zlibPD).2.map (fun pt => pt.2.coverage.growth_rate.isSome)
      = [true] ∧
    (analyze_project_data zlibPD).2.map
        (fun pt => (coverageRecords pt.2.coverage).map topKeys)
      = [List.replicate 9 ["date", "coverage", "growth_rate"]] :=
  ⟨rfl, rfl, rfl, rfl⟩

/-- C2: analyzing the same retrieved `project_data` twice yields the same
analysis mapping: the second run recomputes identical values even though the
first run added a `growth_rate` column to the stored tables. -/
theorem C2_analyze_idempotent (pd : List (String × ProjectTables)) :
    (analyze_project_data (analyze_project_data pd).2).1
      = (analyze_project_data pd).1 := by
  induction pd with
  | nil => rfl
  | cons hd tl ih =>
    obtain ⟨p, c, r, g⟩ := hd
    simp only [analyze_project_data]
    exact congrArg₂ (· :: ·)
      (congrArg (Prod.mk p) (analyze_one_fst_ignores_growth c r (some _) g)) ih

/-- C3: requesting any list of projects containing an identifier with no
baseline makes `fetch_project_data` fail with a `KeyError` instead of
returning tables built from a default baseline. -/
theorem C3_unknown_project_fails (names : List String) (p : String)
    (hmem : p ∈ names) (hp : coverage_base p = none) :
    ∃ msg, fetch_project_data names = Except.error msg := by
  induction names with
  | nil => simp at hmem
  | cons q rest ih =>
    rcases List.mem_cons.mp hmem with heq | hmem2
    · exact ⟨"KeyError: " ++ q, by simp [fetch_project_data, heq ▸ hp]⟩
    · cases hq : coverage_base q with
      | none => exact ⟨"KeyError: " ++ q, by simp [fetch_project_data, hq]⟩
      | some b =>
        obtain ⟨msg, hmsg⟩ := ih hmem2
        exact ⟨msg, by simp [fetch_project_data, hq, hmsg]⟩

/-- Witness for C3 at the concrete unknown project `"curl"`. -/
theorem C3_unknown_project_fails_witness :
    ("curl" ∈ ["curl"]) ∧ coverage_base "curl" = none ∧
      exceptOk (fetch_project_data ["curl"]) = false := by
  refine ⟨by simp, rfl, ?_⟩
  obtain ⟨msg, hmsg⟩ := C3_unknown_project_fails ["curl"] "curl" (by simp) rfl
  rw [hmsg]
  rfl

/-- Every project of a successful analysis of fetched data reports exactly 8
unique crashes (the fixed crash table has 9 rows, `abc123` occurring twice). -/
lemma analysis_mem {pd : List (String × ProjectTables)}
    {p : String} {a : Analysis} (hmem : (p, a) ∈ (analyze_project_data pd).1) :
    ∃ t, (p, t) ∈ pd ∧ a = (analyze_one t).1 := by
  induction pd with
  | nil => simp [analyze_project_data] at hmem
  | cons hd tl ih =>
    obtain ⟨q, t⟩ := hd
    simp only [analyze_project_data] at hmem
    rcases List.mem_cons.mp hmem with heq | hmem2
    · obtain ⟨hp, ha⟩ := Prod.mk.inj heq
      exact ⟨t, by simp [hp], ha⟩
    · obtain ⟨t2, ht2, ha⟩ := ih hmem2
      exact ⟨t2, List.mem_cons_of_mem _ ht2, ha⟩

/-- C5: for every analysis of fetched data, `unique_crashes` is the number
of distinct `crash_hash` values of the project's crash table, and on the
fixed simulated table (9 events, `abc123` twice) that number is 8. -/
theorem C5_unique_crashes (names : List String) (pd : List (String × ProjectTables))
    (hf : fetch_project_data names = Except.ok pd)
    (p : String) (a : Analysis) (hmem : (p, a) ∈ (analyze_project_data pd).1) :
    a.unique_crashes = (crash_data.map CrashRow.crash_hash).toFinset.card ∧
      a.unique_crashes = 8 := by
  obtain ⟨t, htmem, ha⟩ := analysis_mem hmem
  obtain ⟨b, _, ht⟩ := fetch_ok_mem hf htmem
  subst ha ht
  constructor
  · rw [List.card_toFinset]
    rfl
  · show (crash_data.map CrashRow.crash_hash).dedup.length = 8
    decide

/-- Witness for C5 on the fetched data of `"zlib"`. -/
theorem C5_unique_crashes_witness :
    ("zlib", (analyze_one zlibTables).1) ∈ (analyze_project_data zlibPD).1 ∧
      (analyze_one zlibTables).1.unique_crashes = 8 := by
  refine ⟨by simp [analyze_project_data, zlibPD], ?_⟩
  exact (C5_unique_crashes ["zlib"] zlibPD rfl "zlib" (analyze_one zlibTables).1
    (by simp [analyze_project_data, zlibPD])).2

/-- C7: every project fetched with baseline `b` gets exactly the 9 coverage
values `b + {0,3,5,7,10,12,15,17,20}` in sample order. -/
theorem C7_coverage_values (names : List String) (pd : List (String × ProjectTables))
    (hf : fetch_project_data names = Except.ok pd)
    (p : String) (t : ProjectTables) (hmem : (p, t) ∈ pd)
    (b : ℚ) (hb : coverage_base p = some b) :
    t.coverage.rows.map CovRow.coverage =
      [b, b + 3, b + 5, b + 7, b + 10, b + 12, b + 15, b + 17, b + 20] := by
  obtain ⟨b2, hb2, ht⟩ := fetch_ok_mem hf hmem
  rw [hb] at hb2
  obtain rfl := Option.some.inj hb2
  subst ht
  rfl

/-- Witness for C7 at `"zlib"` (baseline 70): values `[70,73,...,90]`. -/
theorem C7_coverage_values_witness :
    coverage_base "zlib" = some 70 ∧
      zlibTables.coverage.rows.map CovRow.coverage =
        [70, 73, 75, 77, 80, 82, 85, 87, 90] := by
  refine ⟨rfl, ?_⟩
  have h := C7_coverage_values ["zlib"] zlibPD rfl "zlib" zlibTables
    (by simp [zlibPD]) 70 rfl
  rw [h]
  norm_num

lemma pctAux_length (prev : ℚ) (l : List ℚ) : (pctAux prev l).length = l.length := by
  induction l generalizing prev with
  | nil => rfl
  | cons c rest ih => simp [pctAux, ih]

lemma pct_change_length (l : List ℚ) : (pct_change l).length = l.length := by
  cases l with
  | nil => rfl
  | cons c rest => simp [pct_change, pctAux_length]

lemma pctAux_get (prev : ℚ) (l : List ℚ) (i : Nat) (h : i < (pctAux prev l).length)
    (h1 : i + 1 < (prev :: l).length) (h0 : i < (prev :: l).length) :
    (pctAux prev l).get ⟨i, h⟩ =
      some (((prev :: l).get ⟨i + 1, h1⟩ - (prev :: l).get ⟨i, h0⟩) /
        (prev :: l).get ⟨i, h0⟩) := by
  induction l generalizing prev i with
  | nil => simp [pctAux] at h
  | cons c rest ih =>
    cases i with
    | zero => rfl
    | succ j =>
      have h2 : j < (pctAux c rest).length := by
        simp only [pctAux, List.length_cons] at h
        omega
      have h1b : j + 1 < (c :: rest).length := by
        simp only [List.length_cons] at h1 ⊢
        omega
      have h0b : j < (c :: rest).length := by
        simp only [List.length_cons] at h0 ⊢
        omega
      exact ih c j h2 h1b h0b

lemma pct_change_get_zero (l : List ℚ) (h : 0 < (pct_change l).length) :
    (pct_change l).get ⟨0, h⟩ = none := by
  cases l with
  | nil => simp [pct_change] at h
  | cons c rest => rfl

lemma pct_change_get_succ (l : List ℚ) (i : Nat) (h : i + 1 < (pct_change l).length)
    (h1 : i + 1 < l.length) (h0 : i < l.length) :
    (pct_change l).get ⟨i + 1, h⟩ =
      some ((l.get ⟨i + 1, h1⟩ - l.get ⟨i, h0⟩) / l.get ⟨i, h0⟩) := by
  cases l with
  | nil => simp [pct_change] at h
  | cons c rest =>
    have h2 : i < (pctAux c rest).length := by
      simp only [pct_change, List.length_cons] at h
      omega
    exact pctAux_get c rest i h2 h1 h0

lemma trend_length (t : ProjectTables) :
    (analyze_one t).1.coverage_trend.length = t.coverage.rows.length := by
  show (List.zipWith _ t.coverage.rows _).length = _
  simp [List.length_zipWith, pct_change_length, coverage_column]

/-- Entry `j` of the coverage trend, expressed through the source columns. -/
lemma trend_entry (t : ProjectTables) (j : Nat)
    (hj : j < t.coverage.rows.length)
    (hp : j < (pct_change (coverage_column t)).length)
    (h : j < (analyze_one t).1.coverage_trend.length) :
    (analyze_one t).1.coverage_trend.get ⟨j, h⟩ =
      TrendRow.mk (t.coverage.rows.get ⟨j, hj⟩).date
        (t.coverage.rows.get ⟨j, hj⟩).coverage
        (((pct_change (coverage_column t)).get ⟨j, hp⟩).map (fun r => r * 100)) := by
  simp only [analyze_one]
  simp only [List.get_eq_getElem, List.getElem_zipWith, List.getElem_map]

/-- C4: in every analysis record's coverage trend, the first sample's growth
rate is `none` and sample `i + 1` carries
`(coverage[i+1] - coverage[i]) / coverage[i] * 100`, over the samples in
their stored order.  Stated over the trend's own entries; exact rational
arithmetic stands in for floating point. -/
theorem C4_growth_rate_formula (t : ProjectTables) :
    (∀ h0 : 0 < (analyze_one t).1.coverage_trend.length,
      ((analyze_one t).1.coverage_trend.get ⟨0, h0⟩).growth_rate = none) ∧
    (∀ (i : Nat) (h : i + 1 < (analyze_one t).1.coverage_trend.length),
      ((analyze_one t).1.coverage_trend.get ⟨i + 1, h⟩).growth_rate =
        some ((((analyze_one t).1.coverage_trend.get ⟨i + 1, h⟩).coverage -
               ((analyze_one t).1.coverage_trend.get ⟨i, Nat.lt_of_succ_lt h⟩).coverage) /
              ((analyze_one t).1.coverage_trend.get ⟨i, Nat.lt_of_succ_lt h⟩).coverage
              * 100)) := by
  constructor
  · intro h0
    have hr0 : 0 < t.coverage.rows.length := trend_length t ▸ h0
    have hp0 : 0 < (pct_change (coverage_column t)).length := by
      rw [pct_change_length]
      simpa [coverage_column] using hr0
    rw [trend_entry t 0 hr0 hp0 h0]
    show ((pct_change (coverage_column t)).get ⟨0, hp0⟩).map (fun r => r * 100) = none
    rw [pct_change_get_zero _ hp0]
    rfl
  · intro i h
    have hr1 : i + 1 < t.coverage.rows.length := trend_length t ▸ h
    have hr0 : i < t.coverage.rows.length := Nat.lt_of_succ_lt hr1
    have hc1 : i + 1 < (coverage_column t).length := by
      simpa [coverage_column] using hr1
    have hc0 : i < (coverage_column t).length := Nat.lt_of_succ_lt hc1
    have hp1 : i + 1 < (pct_change (coverage_column t)).length := by
      rw [pct_change_length]
      exact hc1
    rw [trend_entry t (i + 1) hr1 hp1 h,
      trend_entry t i hr0 (Nat.lt_of_succ_lt hp1) (Nat.lt_of_succ_lt h)]
    show ((pct_change (coverage_column t)).get ⟨i + 1, hp1⟩).map (fun r => r * 100) = _
    rw [pct_change_get_succ _ i hp1 hc1 hc0]
    have hcg1 : (coverage_column t).get ⟨i + 1, hc1⟩ =
        (t.coverage.rows.get ⟨i + 1, hr1⟩).coverage := by
      simp only [coverage_column, List.get_eq_getElem, List.getElem_map]
    have hcg0 : (coverage_column t).get ⟨i, hc0⟩ =
        (t.coverage.rows.get ⟨i, hr0⟩).coverage := by
      simp only [coverage_column, List.get_eq_getElem, List.getElem_map]
    rw [hcg1, hcg0]
    rfl

/-- Witness for C4 at the concrete `zlib` tables: the first trend sample has
no growth rate, and sample 1 carries the consecutive-change formula. -/
theorem C4_growth_rate_formula_witness :
    ((analyze_one zlibTables).1.coverage_trend.get ⟨0, by decide⟩).growth_rate = none ∧
    ((analyze_one zlibTables).1.coverage_trend.get ⟨1, by decide⟩).growth_rate =
      some ((((analyze_one zlibTables).1.coverage_trend.get ⟨1, by decide⟩).coverage -
             ((analyze_one zlibTables).1.coverage_trend.get ⟨0, by decide⟩).coverage) /
            ((analyze_one zlibTables).1.coverage_trend.get ⟨0, by decide⟩).coverage
            * 100) :=
  ⟨(C4_growth_rate_formula zlibTables).1 (by decide),
   (C4_growth_rate_formula zlibTables).2 0 (by decide)⟩

/-- C6: `avg_coverage` is the arithmetic mean of the coverage column and,
for a non-empty coverage table, lies between the smallest and largest
coverage sample inclusive. -/
theorem C6_avg_coverage_bounds (t : ProjectTables)
    (h : 0 < (coverage_column t).length) :
    (analyze_one t).1.avg_coverage
        = (coverage_column t).sum / ((coverage_column t).length : ℚ) ∧
    (coverage_column t).minimum_of_length_pos h ≤ (analyze_one t).1.avg_coverage ∧
    (analyze_one t).1.avg_coverage ≤ (coverage_column t).maximum_of_length_pos h := by
  have hlen : (0 : ℚ) < ((coverage_column t).length : ℚ) := by
    exact_mod_cast h
  refine ⟨rfl, ?_, ?_⟩
  · have hle : ∀ x ∈ coverage_column t, (coverage_column t).minimum_of_length_pos h ≤ x :=
      fun x hx => List.minimum_of_length_pos_le_of_mem hx h
    have hsum := List.card_nsmul_le_sum (coverage_column t) _ hle
    show (coverage_column t).minimum_of_length_pos h ≤
      (coverage_column t).sum / ((coverage_column t).length : ℚ)
    rw [le_div_iff₀ hlen]
    calc (coverage_column t).minimum_of_length_pos h * ((coverage_column t).length : ℚ)
        = (coverage_column t).length • (coverage_column t).minimum_of_length_pos h := by
          rw [nsmul_eq_mul, mul_comm]
      _ ≤ (coverage_column t).sum := hsum
  · have hle : ∀ x ∈ coverage_column t, x ≤ (coverage_column t).maximum_of_length_pos h :=
      fun x hx => List.le_maximum_of_length_pos_of_mem hx h
    have hsum := List.sum_le_card_nsmul (coverage_column t) _ hle
    show (coverage_column t).sum / ((coverage_column t).length : ℚ) ≤
      (coverage_column t).maximum_of_length_pos h
    rw [div_le_iff₀ hlen]
    calc (coverage_column t).sum
        ≤ (coverage_column t).length • (coverage_column t).maximum_of_length_pos h := hsum
      _ = (coverage_column t).maximum_of_length_pos h * ((coverage_column t).length : ℚ) := by
          rw [nsmul_eq_mul, mul_comm]

/-- Witness for C6 at the concrete `zlib` tables. -/
theorem C6_avg_coverage_bounds_witness :
    0 < (coverage_column zlibTables).length ∧
    (coverage_column zlibTables).minimum_of_length_pos (by decide)
        ≤ (analyze_one zlibTables).1.avg_coverage ∧
    (analyze_one zlibTables).1.avg_coverage
        ≤ (coverage_column zlibTables).maximum_of_length_pos (by decide) :=
  ⟨by decide, (C6_avg_coverage_bounds zlibTables (by decide)).2.1,
   (C6_avg_coverage_bounds zlibTables (by decide)).2.2⟩

/-- C8: `fetch_project_metadata` stores, for every requested project, the
decoded body verbatim on a 200 response and exactly the
`{"error": "Project not found"}` sentinel on any other status; being a total
function of the transport, a per-project not-found never raises. -/
theorem C8_metadata_record (get : String → HttpResponse) (names : List String) :
    (∀ p v, (p, v) ∈ (fetch_project_metadata get names).2 →
      v = if (get (metadata_url p)).status_code = 200
          then (get (metadata_url p)).body else notFoundRecord) ∧
    (∀ p, p ∈ names →
      (p, if (get (metadata_url p)).status_code = 200
          then (get (metadata_url p)).body else notFoundRecord)
        ∈ (fetch_project_metadata get names).2) := by
  induction names with
  | nil =>
    exact ⟨fun p v hmem => absurd hmem (by simp [fetch_project_metadata]),
      fun p hp => absurd hp (by simp)⟩
  | cons q rest ih =>
    constructor
    · intro p v hmem
      simp only [fetch_project_metadata] at hmem
      rcases List.mem_cons.mp hmem with heq | hmem2
      · injection heq with hp hv
        subst hp
        exact hv
      · exact ih.1 p v hmem2
    · intro p hp
      simp only [fetch_project_metadata]
      rcases List.mem_cons.mp hp with heq | hp2
      · subst heq
        exact List.mem_cons_self _ _
      · exact List.mem_cons_of_mem _ (ih.2 p hp2)

/-- Witness for C8: a 200 stub stores the body verbatim, a 404 stub stores
the sentinel. -/
theorem C8_metadata_record_witness :
    ("zlib" ∈ ["zlib"]) ∧
    ("zlib", JVal.str "ok") ∈ (fetch_project_metadata stub200 ["zlib"]).2 ∧
    ("zlib", notFoundRecord) ∈ (fetch_project_metadata stub404 ["zlib"]).2 := by
  refine ⟨by simp, ?_, ?_⟩
  · have h := (C8_metadata_record stub200 ["zlib"]).2 "zlib" (by simp)
    simpa [stub200] using h
  · have h := (C8_metadata_record stub404 ["zlib"]).2 "zlib" (by simp)
    simpa [stub404] using h

/-- A successful `plot_coverage_trends` records exactly the figure save and
returns the `project_data` store unchanged. -/
lemma plot_ok_parts {pd : List (String × ProjectTables)} {names : List String}
    {out : (List (String × List (Nat × ℚ)) × List Effect) × List (String × ProjectTables)}
    (h : plot_coverage_trends pd names = Except.ok out) :
    out.1.2 = [Effect.saveFig chart_path] ∧ out.2 = pd := by
  unfold plot_coverage_trends at h
  cases hp : plotLoop pd names with
  | error e =>
    rw [hp] at h
    exact absurd h (by simp)
  | ok series =>
    rw [hp] at h
    injection h with h2
    subst h2
    exact ⟨rfl, rfl⟩

/-- C10: `plot_coverage_trends` leaves the stored `project_data` unchanged -
every date parse and chronological sort happens on the `.copy()` of the
coverage table, so the stored rows, their order, and their string dates
survive the call intact. -/
theorem C10_plot_preserves_store (pd : List (String × ProjectTables))
    (names : List String)
    (out : (List (String × List (Nat × ℚ)) × List Effect) × List (String × ProjectTables))
    (h : plot_coverage_trends pd names = Except.ok out) :
    out.2 = pd :=
  (plot_ok_parts h).2

/-- Witness for C10: plotting the fetched `zlib` data succeeds and returns
the store it was given. -/
theorem C10_plot_preserves_store_witness :
    (plot_coverage_trends zlibPD ["zlib"]).map Prod.snd = Except.ok zlibPD := by
  have hok : exceptOk (plot_coverage_trends zlibPD ["zlib"]) = true := rfl
  cases hm : plot_coverage_trends zlibPD ["zlib"] with
  | error e =>
    rw [hm] at hok
    exact absurd hok (by simp [exceptOk])
  | ok out =>
    simp only [Except.map]
    exact congrArg Except.ok (C10_plot_preserves_store zlibPD ["zlib"] out hm)

/-- The HTTP effects of the metadata fetch are one GET per project, in
request order. -/
lemma fetch_project_metadata_effects (get : String → HttpResponse) (names : List String) :
    (fetch_project_metadata get names).1 =
      names.map (fun p => Effect.httpGet (metadata_url p)) := by
  induction names with
  | nil => rfl
  | cons q rest ih => simp [fetch_project_metadata, ih]

/-- C9: a successful run performs its observable steps in the fixed order
metadata GETs (one per project, during the metadata fetch), then the chart
save (the render step), then the report write as the final step; the written
report is one JSON object whose top-level keys are exactly `metadata`,
`analysis`, `raw_data`.  Fetch data, analyze and report building are the
pure steps between, in the data-flow order fixed by `main`. -/
theorem C9_pipeline_order_and_report_keys (get : String → HttpResponse)
    (names : List String) (res : MainResult)
    (h : main get names = Except.ok res) :
    res.trace = names.map (fun p => Effect.httpGet (metadata_url p)) ++
      [Effect.saveFig chart_path, Effect.writeFile report_path res.report] ∧
    topKeys res.report = ["metadata", "analysis", "raw_data"] := by
  cases hf : fetch_project_data names with
  | error e =>
    simp [main, hf] at h
  | ok pd =>
    cases hp : plot_coverage_trends (analyze_project_data pd).2 names with
    | error e =>
      simp [main, hf, hp] at h
    | ok plotR =>
      simp only [main, hf, hp, Except.ok.injEq] at h
      subst h
      refine ⟨?_, rfl⟩
      show (fetch_project_metadata get names).1 ++ plotR.1.2 ++
        [Effect.writeFile report_path _] = _
      rw [fetch_project_metadata_effects, (plot_ok_parts hp).1]
      simp

/-- Witness for C9: a full run over `["zlib"]` with a 404 transport stub
yields a report with exactly the three top-level keys. -/
theorem C9_pipeline_order_and_report_keys_witness :
    (main stub404 ["zlib"]).map (fun res => topKeys res.report)
      = Except.ok ["metadata", "analysis", "raw_data"] := by
  have hok : exceptOk (main stub404 ["zlib"]) = true := rfl
  cases hm : main stub404 ["zlib"] with
  | error e =>
    rw [hm] at hok
    exact absurd hok (by simp [exceptOk])
  | ok res =>
    simp only [Except.map]
    exact congrArg Except.ok
      (C9_pipeline_order_and_report_keys stub404 ["zlib"] res hm).2

end OssFuzz
